import Mathlib

/-!
Verification of recursiveVidGen: the client-side exploration chain state
machine (src/app/page.tsx) and the two server gateway handlers
(the /api/explore and /api/generate route handlers).

Shallow embedding: React state updates become pure functions on an explicit
state record; the Runway provider is a function argument from request
parameters to task outcomes; HTTP responses are status-plus-body records.
-/

namespace RecursiveVidGen

/-- Mirror of the `TaskStatus` union type in page.tsx. -/
inductive TaskStatus
  | idle
  | uploading
  | generating
  | polling
  | done
  | error
deriving Repr, DecidableEq

/-- Mirror of the `ExploreNode` type in page.tsx. -/
structure ExploreNode where
  id : String
  prompt : String
  frameImage : String
  videoUrl : String
deriving Repr, DecidableEq

/-- The exploration-related React state of the `Home` component in page.tsx:
`exploreChain`, `capturedFrame`, `explorePrompt`, `exploreStatus`,
`exploreMessage`. -/
structure ExploreState where
  exploreChain : List ExploreNode
  capturedFrame : Option String
  explorePrompt : String
  exploreStatus : TaskStatus
  exploreMessage : String
deriving Repr, DecidableEq

/-- JavaScript falsiness of a nullable string: `null`/`undefined` and the
empty string are falsy. -/
def jsFalsy : Option String → Bool
  | none => true
  | some s => s = ""

/-- JavaScript `a || b` for a nullable string `a` with string default `b`. -/
def jsOrElse : Option String → String → String
  | none, d => d
  | some s, d => if s = "" then d else s

/-- JavaScript `String.prototype.trim()`: drop whitespace from both ends. -/
def jsTrim (s : String) : String :=
  String.mk
    (((s.data.dropWhile Char.isWhitespace).reverse.dropWhile Char.isWhitespace).reverse)

/-- The chain updater passed to `setExploreChain` in `handleExplore`
(page.tsx line 179): `(prev) => [...prev, newNode]`. -/
def appendChain (n : ExploreNode) (prev : List ExploreNode) : List ExploreNode :=
  prev ++ [n]

/-- The chain updater passed to `setExploreChain` in `navigateTo`
(page.tsx line 192): `(prev) => prev.slice(0, index + 1)`. -/
def truncateChain (index : Nat) (prev : List ExploreNode) : List ExploreNode :=
  prev.take (index + 1)

/-- `navigateTo(index)` from page.tsx (lines 191-197): truncate the chain to
`[0..index]`, clear the captured frame and prompt, set status idle and clear
the message. -/
def navigateTo (index : Nat) (s : ExploreState) : ExploreState :=
  { s with
    exploreChain := truncateChain index s.exploreChain
    capturedFrame := none
    explorePrompt := ""
    exploreStatus := TaskStatus.idle
    exploreMessage := "" }

/-- `goToRoot()` from page.tsx (lines 199-205): empty the chain, clear the
captured frame and prompt, set status idle and clear the message. -/
def goToRoot (s : ExploreState) : ExploreState :=
  { s with
    exploreChain := []
    capturedFrame := none
    explorePrompt := ""
    exploreStatus := TaskStatus.idle
    exploreMessage := "" }

/-- A video element as seen by `handleVideoClick` and `captureFrame`:
whether it is paused, whether `canvas.getContext("2d")` yields a context,
and the JPEG data URI that `canvas.toDataURL("image/jpeg", 0.85)` would
produce for its current pixels. -/
structure VideoSurface where
  paused : Bool
  hasContext : Bool
  frameData : String
deriving Repr, DecidableEq

/-- `captureFrame` from page.tsx (lines 123-133): if no 2d context is
available, return without changing state; otherwise store the captured
data URI and clear the prompt. -/
def captureFrame (v : VideoSurface) (s : ExploreState) : ExploreState :=
  if v.hasContext then
    { s with capturedFrame := some v.frameData, explorePrompt := "" }
  else s

/-- `handleVideoClick` from page.tsx (lines 136-139): if the element is null
or not paused, return; otherwise capture the frame. -/
def handleVideoClick (v : Option VideoSurface) (s : ExploreState) : ExploreState :=
  match v with
  | none => s
  | some ve => if ve.paused then captureFrame ve s else s

/-- The JSON response of a `/api/explore` fetch as consumed by
`handleExplore`: `res.ok`, the `error` field read in the non-ok branch, and
`data.videoUrl` read in the ok branch. -/
structure ExploreFetchResult where
  ok : Bool
  errField : Option String
  videoUrl : Option String
deriving Repr, DecidableEq

/-- `handleExplore` from page.tsx (lines 142-188), as a function of the new
node id (`crypto.randomUUID()`) and the completed fetch result.
Guard: return unchanged when the captured frame or the trimmed prompt is
falsy. Non-ok response: status error with `err.error || "Explore generation
failed"`. Ok response with falsy `videoUrl`: status error with "No video URL
returned". Otherwise append the new node, clear frame and prompt, status
done with the success message. -/
def handleExplore (newId : String) (res : ExploreFetchResult) (s : ExploreState) :
    ExploreState :=
  match s.capturedFrame with
  | none => s
  | some frame =>
    if frame = "" ∨ jsTrim s.explorePrompt = "" then s
    else if res.ok = false then
      { s with
        exploreStatus := TaskStatus.error
        exploreMessage := jsOrElse res.errField "Explore generation failed" }
    else if jsFalsy res.videoUrl then
      { s with
        exploreStatus := TaskStatus.error
        exploreMessage := "No video URL returned" }
    else
      { exploreChain := appendChain
          { id := newId
            prompt := jsTrim s.explorePrompt
            frameImage := frame
            videoUrl := (res.videoUrl).getD "" } s.exploreChain
        capturedFrame := none
        explorePrompt := ""
        exploreStatus := TaskStatus.done
        exploreMessage := "Exploration video generated! Pause and click to go deeper." }

/-- The argument record of `client.imageToVideo.create(...)` in both route
handlers: model, promptImage, promptText, ratio, duration. -/
structure CreateParams where
  model : String
  promptImage : String
  promptText : String
  ratio : String
  duration : Nat
deriving Repr, DecidableEq

/-- A completed provider task as read by both handlers: its `output` field,
which may be absent (`result.output?`) or a list of URLs. -/
structure TaskResult where
  output : Option (List String)
deriving Repr, DecidableEq

/-- Outcome of `create(...).waitForTaskOutput(...)` for one task: success
with a result, or a thrown failure (submission error, timeout, provider
error). `fail (some m)` is an `Error` with message `m`; `fail none` is a
thrown non-`Error` value. -/
inductive TaskOutcome
  | ok (t : TaskResult)
  | fail (msg : Option String)
deriving Repr, DecidableEq

/-- The catch-clause message in both handlers:
`error instanceof Error ? error.message : "Video generation failed"`. -/
def catchMessage : Option String → String
  | some m => m
  | none => "Video generation failed"

/-- `result.output?.[0] ?? null`: the first output URL, or null when the
output field is absent or the list is empty. -/
def firstOutput (t : TaskResult) : Option String :=
  match t.output with
  | none => none
  | some l => l.head?

/-- JSON body of a `/api/generate` response: either an error object or the
two (possibly null) video URLs. -/
inductive GenerateBody
  | jsonErr (message : String)
  | urls (settingVideoUrl : Option String) (personVideoUrl : Option String)
deriving Repr, DecidableEq

/-- An HTTP response of the generate handler: status code plus JSON body. -/
structure GenerateResponse where
  status : Nat
  body : GenerateBody
deriving Repr, DecidableEq

/-- JSON body of a `/api/explore` response: either an error object or a
(possibly null) video URL. -/
inductive ExploreBody
  | jsonErr (message : String)
  | videoUrl (u : Option String)
deriving Repr, DecidableEq

/-- An HTTP response of the explore handler: status code plus JSON body. -/
structure ExploreResponse where
  status : Nat
  body : ExploreBody
deriving Repr, DecidableEq

/-- Parsed body of a `/api/generate` request; absent fields are `none`. -/
structure GenerateRequest where
  frontImage : Option String
  backgroundImage : Option String
deriving Repr, DecidableEq

/-- Parsed body of an `/api/explore` request; absent fields are `none`. -/
structure ExploreRequest where
  image : Option String
  prompt : Option String
deriving Repr, DecidableEq

/-- The fixed cinematic-pan prompt text of generate Task 1. -/
def panPromptText : String :=
  "Slow cinematic pan across this scene, smooth camera movement, atmospheric lighting, high quality"

/-- The fixed person-animation prompt text of generate Task 2. -/
def personPromptText : String :=
  "Person talking naturally and expressively, subtle head movements, natural facial expressions, cinematic lighting"

/-- The `create` arguments of generate Task 1 (cinematic pan over the
background image). -/
def settingParams (backgroundImage : String) : CreateParams :=
  { model := "gen4_turbo"
    promptImage := backgroundImage
    promptText := panPromptText
    ratio := "1280:720"
    duration := 10 }

/-- The `create` arguments of generate Task 2 (animated person from the
front image). -/
def personParams (frontImage : String) : CreateParams :=
  { model := "gen4_turbo"
    promptImage := frontImage
    promptText := personPromptText
    ratio := "1280:720"
    duration := 10 }

/-- The `POST` handler of the generate route, as a function of the parsed
request and of the provider (mapping each submitted `create` argument record
to its task outcome). Returns the HTTP response paired with the list of
`create` calls made, in submission order. Missing or empty `frontImage` or
`backgroundImage` yields a 400 with no calls; a failure of either task
yields a 500 with the catch-clause message; otherwise a 200 with the first
output of each task (null when absent or empty). `Promise.all` rejects with
the first failure; when both tasks fail the model surfaces the failure of
the setting task. -/
def generatePOST (req : GenerateRequest) (provider : CreateParams → TaskOutcome) :
    GenerateResponse × List CreateParams :=
  if jsFalsy req.frontImage ∨ jsFalsy req.backgroundImage then
    (⟨400, GenerateBody.jsonErr "Front image and background image are required"⟩, [])
  else
    let bg := req.backgroundImage.getD ""
    let front := req.frontImage.getD ""
    let calls := [settingParams bg, personParams front]
    match provider (settingParams bg), provider (personParams front) with
    | TaskOutcome.ok ts, TaskOutcome.ok tp =>
      (⟨200, GenerateBody.urls (firstOutput ts) (firstOutput tp)⟩, calls)
    | TaskOutcome.fail m, _ =>
      (⟨500, GenerateBody.jsonErr (catchMessage m)⟩, calls)
    | TaskOutcome.ok _, TaskOutcome.fail m =>
      (⟨500, GenerateBody.jsonErr (catchMessage m)⟩, calls)

/-- The `POST` handler of the explore route, as a function of the parsed
request and of the provider. Returns the HTTP response paired with the list
of `create` calls made. Missing or empty `image` or `prompt` yields a 400
with no calls; a task failure yields a 500 with the catch-clause message;
otherwise a 200 with the first output (null when absent or empty). -/
def explorePOST (req : ExploreRequest) (provider : CreateParams → TaskOutcome) :
    ExploreResponse × List CreateParams :=
  if jsFalsy req.image ∨ jsFalsy req.prompt then
    (⟨400, ExploreBody.jsonErr "Image and prompt are required"⟩, [])
  else
    let params : CreateParams :=
      { model := "gen4_turbo"
        promptImage := req.image.getD ""
        promptText := req.prompt.getD ""
        ratio := "1280:720"
        duration := 10 }
    match provider params with
    | TaskOutcome.ok t =>
      (⟨200, ExploreBody.videoUrl (firstOutput t)⟩, [params])
    | TaskOutcome.fail m =>
      (⟨500, ExploreBody.jsonErr (catchMessage m)⟩, [params])

/-! Concrete fixtures used by witnesses and counterexamples. -/

/-- A sample exploration node. -/
def nodeA : ExploreNode :=
  { id := "a", prompt := "pa", frameImage := "fa", videoUrl := "va" }

/-- A second sample exploration node. -/
def nodeB : ExploreNode :=
  { id := "b", prompt := "pb", frameImage := "fb", videoUrl := "vb" }

/-- A third sample exploration node. -/
def nodeC : ExploreNode :=
  { id := "c", prompt := "pc", frameImage := "fc", videoUrl := "vc" }

/-- A sample state whose chain holds two nodes. -/
def stateAB : ExploreState :=
  { exploreChain := [nodeA, nodeB]
    capturedFrame := none
    explorePrompt := ""
    exploreStatus := TaskStatus.idle
    exploreMessage := "" }

/-- A sample state with a pending captured frame and a typed prompt. -/
def stateCapture : ExploreState :=
  { exploreChain := [nodeA]
    capturedFrame := some "frameX"
    explorePrompt := "go"
    exploreStatus := TaskStatus.idle
    exploreMessage := "" }

/-- A successful explore fetch result carrying a video URL. -/
def fetchOk : ExploreFetchResult :=
  { ok := true, errField := none, videoUrl := some "http://v" }

/-- A 200 explore fetch result whose videoUrl is null. -/
def fetchNullUrl : ExploreFetchResult :=
  { ok := true, errField := none, videoUrl := none }

/-- A paused video surface with an available 2d context. -/
def vPaused : VideoSurface :=
  { paused := true, hasContext := true, frameData := "d" }

/-- A playing video surface. -/
def vPlaying : VideoSurface :=
  { paused := false, hasContext := true, frameData := "d" }

/-- A provider for which every task throws an Error with message boom. -/
def providerFailAll : CreateParams → TaskOutcome :=
  fun _ => TaskOutcome.fail (some "boom")

/-- A provider for which every task completes with an empty output list. -/
def providerEmptyAll : CreateParams → TaskOutcome :=
  fun _ => TaskOutcome.ok { output := some [] }

/-- A provider for which every task completes with one output URL. -/
def providerOneUrl : CreateParams → TaskOutcome :=
  fun _ => TaskOutcome.ok { output := some ["http://u"] }

/-! Theorems settling the claims. -/

/-- C1: for every chain state and every index i with 0 <= i < length,
navigateTo(i) followed by appending a node n yields a chain of length i+2
whose first i+1 elements equal the first i+1 elements of the original chain
and whose last element is n; the elements after index i of the original
chain are discarded (the result is exactly the first i+1 original elements
followed by n). -/
theorem navigateTo_then_append (s : ExploreState) (i : Nat) (n : ExploreNode)
    (h : i < s.exploreChain.length) :
    appendChain n (navigateTo i s).exploreChain = s.exploreChain.take (i + 1) ++ [n] ∧
    (appendChain n (navigateTo i s).exploreChain).length = i + 2 ∧
    (appendChain n (navigateTo i s).exploreChain).take (i + 1) =
      s.exploreChain.take (i + 1) ∧
    (appendChain n (navigateTo i s).exploreChain).getLast? = some n := by
  have hlen : ((navigateTo i s).exploreChain).length = i + 1 := by
    simp [navigateTo, truncateChain, List.length_take]
    omega
  refine ⟨rfl, ?_, ?_, ?_⟩
  · simp [appendChain, hlen]
  · rw [appendChain, List.take_left' hlen]
    rfl
  · simp [appendChain]

/-- Witness for C1: on the two-node chain of stateAB, navigateTo 0 then
appending nodeC yields exactly the first node followed by nodeC. -/
theorem navigateTo_then_append_witness :
    appendChain nodeC (navigateTo 0 stateAB).exploreChain =
      stateAB.exploreChain.take 1 ++ [nodeC] ∧
    (appendChain nodeC (navigateTo 0 stateAB).exploreChain).length = 2 ∧
    (appendChain nodeC (navigateTo 0 stateAB).exploreChain).take 1 =
      stateAB.exploreChain.take 1 ∧
    (appendChain nodeC (navigateTo 0 stateAB).exploreChain).getLast? = some nodeC :=
  navigateTo_then_append stateAB 0 nodeC (by decide)

/-- C8: goToRoot always yields an empty exploration chain, regardless of the
prior state. -/
theorem goToRoot_empties_chain (s : ExploreState) :
    (goToRoot s).exploreChain = [] :=
  rfl

/-- C9: a click on a video surface is a silent no-op (state unchanged) when
the element is null, when it is not paused, or when no 2d context is
available; only a click on a paused surface with a context stores the
captured frame (and clears the prompt). -/
theorem handleVideoClick_guard (v : VideoSurface) (s : ExploreState) :
    handleVideoClick none s = s ∧
    (v.paused = false → handleVideoClick (some v) s = s) ∧
    (v.hasContext = false → handleVideoClick (some v) s = s) ∧
    (v.paused = true → v.hasContext = true →
      handleVideoClick (some v) s =
        { s with capturedFrame := some v.frameData, explorePrompt := "" }) := by
  refine ⟨rfl, ?_, ?_, ?_⟩
  · intro hp
    simp [handleVideoClick, hp]
  · intro hc
    by_cases hp : v.paused <;> simp [handleVideoClick, captureFrame, hp, hc]
  · intro hp hc
    simp [handleVideoClick, captureFrame, hp, hc]

/-- Witness for C9: a click on a playing surface leaves the state unchanged,
and a click on a paused surface with a context stores the frame. -/
theorem handleVideoClick_guard_witness :
    handleVideoClick (some vPlaying) stateAB = stateAB ∧
    handleVideoClick (some vPaused) stateAB =
      { stateAB with capturedFrame := some vPaused.frameData, explorePrompt := "" } :=
  ⟨(handleVideoClick_guard vPlaying stateAB).2.1 rfl,
   (handleVideoClick_guard vPaused stateAB).2.2.2 rfl rfl⟩

/-- Counterexample for C2: a successful append transition (handleExplore on
stateCapture with fetchOk) does append a node and does clear the captured
frame and prompt, but leaves exploreStatus equal to done, not idle. -/
theorem append_status_not_idle_cex :
    (handleExplore "n1" fetchOk stateCapture).exploreChain.length =
      stateCapture.exploreChain.length + 1 ∧
    (handleExplore "n1" fetchOk stateCapture).capturedFrame = none ∧
    (handleExplore "n1" fetchOk stateCapture).explorePrompt = "" ∧
    (handleExplore "n1" fetchOk stateCapture).exploreStatus ≠ TaskStatus.idle := by
  refine ⟨?_, ?_, ?_, ?_⟩ <;> decide

/-- C2 as amended: every transition of the exploration chain state machine
clears the captured frame and empties the prompt; navigateTo and reset also
set the exploration status to idle, while a successful append (handleExplore
success path) sets it to done. -/
theorem transitions_clear_capture_substate (s : ExploreState) (i : Nat)
    (newId frame u : String) (res : ExploreFetchResult)
    (hframe : s.capturedFrame = some frame) (hf : frame ≠ "")
    (hp : jsTrim s.explorePrompt ≠ "") (hok : res.ok = true)
    (hu : res.videoUrl = some u) (hu2 : u ≠ "") :
    (navigateTo i s).capturedFrame = none ∧
    (navigateTo i s).explorePrompt = "" ∧
    (navigateTo i s).exploreStatus = TaskStatus.idle ∧
    (goToRoot s).capturedFrame = none ∧
    (goToRoot s).explorePrompt = "" ∧
    (goToRoot s).exploreStatus = TaskStatus.idle ∧
    (handleExplore newId res s).capturedFrame = none ∧
    (handleExplore newId res s).explorePrompt = "" ∧
    (handleExplore newId res s).exploreStatus = TaskStatus.done := by
  refine ⟨rfl, rfl, rfl, rfl, rfl, rfl, ?_, ?_, ?_⟩ <;>
    simp [handleExplore, hframe, hf, hp, hok, hu, hu2, jsFalsy]

/-- Witness for the amended C2: concrete instantiation on stateCapture with
a successful fetch. -/
theorem transitions_clear_capture_substate_witness :
    (navigateTo 0 stateCapture).capturedFrame = none ∧
    (navigateTo 0 stateCapture).explorePrompt = "" ∧
    (navigateTo 0 stateCapture).exploreStatus = TaskStatus.idle ∧
    (goToRoot stateCapture).capturedFrame = none ∧
    (goToRoot stateCapture).explorePrompt = "" ∧
    (goToRoot stateCapture).exploreStatus = TaskStatus.idle ∧
    (handleExplore "n1" fetchOk stateCapture).capturedFrame = none ∧
    (handleExplore "n1" fetchOk stateCapture).explorePrompt = "" ∧
    (handleExplore "n1" fetchOk stateCapture).exploreStatus = TaskStatus.done :=
  transitions_clear_capture_substate stateCapture 0 "n1" "frameX" "http://v" fetchOk
    rfl (by decide) (by decide) rfl rfl (by decide)

/-- C10: when the explore fetch returns ok with a null videoUrl, the client
handleExplore appends no node, leaves the chain (and the captured frame and
prompt) unchanged, and sets the exploration status to error with the message
No video URL returned. -/
theorem null_videoUrl_client_error (s : ExploreState) (newId frame : String)
    (res : ExploreFetchResult)
    (hframe : s.capturedFrame = some frame) (hf : frame ≠ "")
    (hp : jsTrim s.explorePrompt ≠ "") (hok : res.ok = true)
    (hu : res.videoUrl = none) :
    handleExplore newId res s =
      { s with
        exploreStatus := TaskStatus.error
        exploreMessage := "No video URL returned" } := by
  simp [handleExplore, hframe, hf, hp, hok, hu, jsFalsy]

/-- Witness for C10: concrete instantiation on stateCapture with a 200
response whose videoUrl is null. -/
theorem null_videoUrl_client_error_witness :
    handleExplore "n1" fetchNullUrl stateCapture =
      { stateCapture with
        exploreStatus := TaskStatus.error
        exploreMessage := "No video URL returned" } :=
  null_videoUrl_client_error stateCapture "n1" "frameX" fetchNullUrl
    rfl (by decide) (by decide) rfl rfl

/-- C3: for every valid generate input, if either of the two generation
tasks fails, the whole call fails with a 500 response carrying the message
of that failure (through the catch clause), and no partial result with the
other URL is returned (the body is an error object, not a urls object). -/
theorem generate_failure_no_partial (front bg : String)
    (provider : CreateParams → TaskOutcome)
    (hf : front ≠ "") (hb : bg ≠ "")
    (h : (∃ m, provider (settingParams bg) = TaskOutcome.fail m) ∨
         (∃ m, provider (personParams front) = TaskOutcome.fail m)) :
    ∃ m, (provider (settingParams bg) = TaskOutcome.fail m ∨
          provider (personParams front) = TaskOutcome.fail m) ∧
      (generatePOST ⟨some front, some bg⟩ provider).1 =
        ⟨500, GenerateBody.jsonErr (catchMessage m)⟩ := by
  cases hs : provider (settingParams bg) with
  | fail m =>
    exact ⟨m, Or.inl rfl, by simp [generatePOST, jsFalsy, hf, hb, hs]⟩
  | ok ts =>
    cases hpp : provider (personParams front) with
    | fail m =>
      exact ⟨m, Or.inr rfl, by simp [generatePOST, jsFalsy, hf, hb, hs, hpp]⟩
    | ok tp =>
      exfalso
      rcases h with ⟨m, hm⟩ | ⟨m, hm⟩
      · rw [hs] at hm
        exact TaskOutcome.noConfusion hm
      · rw [hpp] at hm
        exact TaskOutcome.noConfusion hm

/-- Witness for C3: with a provider failing every task with message boom,
the generate handler returns 500 with message boom. -/
theorem generate_failure_no_partial_witness :
    ∃ m, (providerFailAll (settingParams "b") = TaskOutcome.fail m ∨
          providerFailAll (personParams "f") = TaskOutcome.fail m) ∧
      (generatePOST ⟨some "f", some "b"⟩ providerFailAll).1 =
        ⟨500, GenerateBody.jsonErr (catchMessage m)⟩ :=
  generate_failure_no_partial "f" "b" providerFailAll (by decide) (by decide)
    (Or.inl ⟨some "boom", rfl⟩)

/-- C5: a generate request missing frontImage or backgroundImage, and an
explore request missing image or prompt, each get a 400 response with a
human-readable message, and no provider call is made (the recorded call list
is empty). -/
theorem missing_field_400_no_call (greq : GenerateRequest) (ereq : ExploreRequest)
    (gprov eprov : CreateParams → TaskOutcome)
    (hg : greq.frontImage = none ∨ greq.backgroundImage = none)
    (he : ereq.image = none ∨ ereq.prompt = none) :
    generatePOST greq gprov =
      (⟨400, GenerateBody.jsonErr "Front image and background image are required"⟩, []) ∧
    explorePOST ereq eprov =
      (⟨400, ExploreBody.jsonErr "Image and prompt are required"⟩, []) := by
  constructor
  · rcases hg with hg | hg <;> simp [generatePOST, jsFalsy, hg]
  · rcases he with he | he <;> simp [explorePOST, jsFalsy, he]

/-- Witness for C5: concrete requests with an absent field. -/
theorem missing_field_400_no_call_witness :
    generatePOST ⟨none, some "b"⟩ providerOneUrl =
      (⟨400, GenerateBody.jsonErr "Front image and background image are required"⟩, []) ∧
    explorePOST ⟨some "i", none⟩ providerOneUrl =
      (⟨400, ExploreBody.jsonErr "Image and prompt are required"⟩, []) :=
  missing_field_400_no_call ⟨none, some "b"⟩ ⟨some "i", none⟩
    providerOneUrl providerOneUrl (Or.inl rfl) (Or.inr rfl)

/-- C6: a provider task completing with an empty output list is mapped by
both gateways to a null URL inside a 200 success body, not to an error. -/
theorem empty_output_maps_to_null (front bg img pr : String)
    (gprov eprov : CreateParams → TaskOutcome)
    (hf : front ≠ "") (hb : bg ≠ "") (hi : img ≠ "") (hp : pr ≠ "")
    (hs : gprov (settingParams bg) = TaskOutcome.ok ⟨some []⟩)
    (hpp : gprov (personParams front) = TaskOutcome.ok ⟨some []⟩)
    (he : eprov ⟨"gen4_turbo", img, pr, "1280:720", 10⟩ = TaskOutcome.ok ⟨some []⟩) :
    (generatePOST ⟨some front, some bg⟩ gprov).1 =
      ⟨200, GenerateBody.urls none none⟩ ∧
    (explorePOST ⟨some img, some pr⟩ eprov).1 =
      ⟨200, ExploreBody.videoUrl none⟩ := by
  constructor
  · simp [generatePOST, jsFalsy, hf, hb, hs, hpp, firstOutput]
  · simp [explorePOST, jsFalsy, hi, hp, he, firstOutput]

/-- Witness for C6: a provider returning an empty output list for every
task yields 200 responses with null URLs from both gateways. -/
theorem empty_output_maps_to_null_witness :
    (generatePOST ⟨some "f", some "b"⟩ providerEmptyAll).1 =
      ⟨200, GenerateBody.urls none none⟩ ∧
    (explorePOST ⟨some "i", some "p"⟩ providerEmptyAll).1 =
      ⟨200, ExploreBody.videoUrl none⟩ :=
  empty_output_maps_to_null "f" "b" "i" "p" providerEmptyAll providerEmptyAll
    (by decide) (by decide) (by decide) (by decide) rfl rfl rfl

/-- C7: on generate success, settingVideoUrl is the first output of the task
whose promptImage was backgroundImage with the fixed cinematic-pan prompt,
and personVideoUrl is the first output of the task whose promptImage was
frontImage with the fixed person-animation prompt; both submitted tasks use
ratio 1280:720 and duration 10, as the recorded call list shows. -/
theorem generate_success_mapping (front bg : String) (ts tp : TaskResult)
    (provider : CreateParams → TaskOutcome)
    (hf : front ≠ "") (hb : bg ≠ "")
    (hs : provider (settingParams bg) = TaskOutcome.ok ts)
    (hpp : provider (personParams front) = TaskOutcome.ok tp) :
    generatePOST ⟨some front, some bg⟩ provider =
      (⟨200, GenerateBody.urls (firstOutput ts) (firstOutput tp)⟩,
       [⟨"gen4_turbo", bg, panPromptText, "1280:720", 10⟩,
        ⟨"gen4_turbo", front, personPromptText, "1280:720", 10⟩]) := by
  have hs2 : provider ⟨"gen4_turbo", bg, panPromptText, "1280:720", 10⟩ =
      TaskOutcome.ok ts := hs
  have hpp2 : provider ⟨"gen4_turbo", front, personPromptText, "1280:720", 10⟩ =
      TaskOutcome.ok tp := hpp
  simp [generatePOST, jsFalsy, hf, hb, settingParams, personParams, hs2, hpp2]

/-- Witness for C7: with a provider returning one URL for every task, the
generate handler returns both URLs and recorded exactly the two fixed-prompt
calls. -/
theorem generate_success_mapping_witness :
    generatePOST ⟨some "f", some "b"⟩ providerOneUrl =
      (⟨200, GenerateBody.urls (firstOutput ⟨some ["http://u"]⟩)
          (firstOutput ⟨some ["http://u"]⟩)⟩,
       [⟨"gen4_turbo", "b", panPromptText, "1280:720", 10⟩,
        ⟨"gen4_turbo", "f", personPromptText, "1280:720", 10⟩]) :=
  generate_success_mapping "f" "b" ⟨some ["http://u"]⟩ ⟨some ["http://u"]⟩
    providerOneUrl (by decide) (by decide) rfl rfl

end RecursiveVidGen
